import Mathlib

/-!
Verification development for the URL shortener service (`src/app/main.py`).

The service is embedded shallowly: the SQLite database becomes an explicit
`DB` state (lists of `UrlMapping` and `Click` rows plus autoincrement
counters), the SQLAlchemy uniqueness constraint on `short_code` becomes a
check performed atomically inside `insert_mapping` (commit either fully
succeeds or is fully rolled back), timestamps become `Nat` parameters, and
the randomness of `random.choice(BASE62_CHARS)` becomes an explicit stream
of indices below the alphabet length.  FastAPI endpoints become functions
from request data and a `DB` to a result (`Except HTTPException _`) and the
successor `DB`.
-/

/-- Row of the `url_mappings` table: integer primary key, original URL,
short code (unique column), creation timestamp. -/
structure UrlMapping where
  id : Nat
  original_url : String
  short_code : String
  created_at : Nat
deriving Repr, DecidableEq

/-- Row of the `clicks` table: integer primary key, foreign key `url_id`
into `url_mappings`, click timestamp, IP address, user agent. -/
structure Click where
  id : Nat
  url_id : Nat
  clicked_at : Nat
  ip_address : String
  user_agent : String
deriving Repr, DecidableEq

/-- The database state: the two tables plus the autoincrement counters for
their integer primary keys. -/
structure DB where
  mappings : List UrlMapping
  clicks : List Click
  next_mapping_id : Nat
  next_click_id : Nat
deriving Repr, DecidableEq

/-- Response model of `POST /api/shorten` (`ShortenResponse` in the source). -/
structure ShortenResponse where
  short_code : String
  original_url : String
deriving Repr, DecidableEq

/-- Response model of `GET /api/stats/\x7bshort_code\x7d` (`StatsResponse`). -/
structure StatsResponse where
  short_code : String
  original_url : String
  total_clicks : Nat
  created_at : Nat
deriving Repr, DecidableEq

/-- A `RedirectResponse(url=..., status_code=302)` value. -/
structure RedirectResponse where
  url : String
  status_code : Nat
deriving Repr, DecidableEq

/-- A FastAPI `HTTPException(status_code=..., detail=...)`. -/
structure HTTPException where
  status_code : Nat
  detail : String
deriving Repr, DecidableEq

/-- The alphabet `BASE62_CHARS = string.digits + string.ascii_letters`:
the 62 characters 0-9, a-z, A-Z in that order. -/
def BASE62_CHARS : List Char :=
  "0123456789abcdefghijklmnopqrstuvwxyzABCDEFGHIJKLMNOPQRSTUVWXYZ".toList

/-- Model of `generate_short_code(length=7)`: joins `length` draws of
`random.choice(BASE62_CHARS)`.  Each call to `random.choice` returns the
element of the sequence at a random index below its length; the draws are
modelled by the explicit index stream `pick`. -/
def generate_short_code (length : Nat) (pick : Nat → Fin BASE62_CHARS.length) :
    String :=
  String.mk ((List.range length).map (fun i => BASE62_CHARS.get (pick i)))

/-- Whether a mapping with the given `short_code` already exists: this is
the storage-level uniqueness constraint on the `short_code` column. -/
def code_taken (db : DB) (code : String) : Bool :=
  db.mappings.any (fun m => m.short_code == code)

/-- The database state after a successful insert of a new mapping row:
the row is appended and the autoincrement counter advances. -/
def inserted_db (db : DB) (original_url code : String) (now : Nat) : DB :=
  { db with
    mappings := db.mappings ++ [⟨db.next_mapping_id, original_url, code, now⟩],
    next_mapping_id := db.next_mapping_id + 1 }

/-- Model of `db.add(UrlMapping(...)); db.commit()`: the commit raises
`IntegrityError` (here `Except.error ()`) exactly when the uniqueness
constraint on `short_code` is violated, and in that case the transaction is
fully rolled back, leaving the database unchanged. -/
def insert_mapping (db : DB) (original_url code : String) (now : Nat) :
    Except Unit (UrlMapping × DB) :=
  if code_taken db code then Except.error ()
  else Except.ok (⟨db.next_mapping_id, original_url, code, now⟩,
                  inserted_db db original_url code now)

/-- Model of `db.query(UrlMapping).filter(UrlMapping.short_code == short_code).first()`. -/
def find_by_code (db : DB) (code : String) : Option UrlMapping :=
  db.mappings.find? (fun m => m.short_code == code)

/-- The retry loop of `create_short_url`: `remaining` attempts are left and
`attempt` indexes the current one (the source iterates `attempt` over
`range(5)`).  Each attempt generates a fresh candidate, tries one insert,
returns the response on success, and on `IntegrityError` rolls back and
retries; when the attempts are exhausted it raises HTTP 500. -/
def create_short_url_loop (picks : Nat → Nat → Fin BASE62_CHARS.length)
    (original_url : String) (now : Nat) (db : DB) (attempt : Nat) :
    Nat → Except HTTPException ShortenResponse × DB
  | 0 => (Except.error ⟨500, "Failed to generate unique short code"⟩, db)
  | remaining + 1 =>
    match insert_mapping db original_url (generate_short_code 7 (picks attempt)) now with
    | Except.ok (m, db2) => (Except.ok ⟨m.short_code, m.original_url⟩, db2)
    | Except.error _ => create_short_url_loop picks original_url now db (attempt + 1) remaining

/-- Endpoint `POST /api/shorten` (`create_short_url`): retry up to 5 times. -/
def create_short_url (picks : Nat → Nat → Fin BASE62_CHARS.length)
    (original_url : String) (now : Nat) (db : DB) :
    Except HTTPException ShortenResponse × DB :=
  create_short_url_loop picks original_url now db 0 5

/-- Endpoint `GET /\x7bshort_code\x7d` (`redirect_short_code`): look the code up; on a
miss raise 404; on a hit record one click (IP and User-Agent each defaulted
to "unknown" when unavailable, as in the source's boundary code) and return
a 302 redirect to the mapping's original URL. -/
def redirect_short_code (db : DB) (short_code : String) (client : Option String)
    (user_agent : Option String) (now : Nat) :
    Except HTTPException RedirectResponse × DB :=
  match find_by_code db short_code with
  | none => (Except.error ⟨404, "Short code not found"⟩, db)
  | some url =>
    let click : Click :=
      ⟨db.next_click_id, url.id, now, client.getD "unknown", user_agent.getD "unknown"⟩
    (Except.ok ⟨url.original_url, 302⟩,
     { db with clicks := db.clicks ++ [click], next_click_id := db.next_click_id + 1 })

/-- Endpoint `GET /api/stats/\x7bshort_code\x7d` (`get_stats`): look the code up; on a
miss raise 404; on a hit count the clicks referencing the mapping's id and
return the stats record.  The database is not modified. -/
def get_stats (db : DB) (short_code : String) :
    Except HTTPException StatsResponse × DB :=
  match find_by_code db short_code with
  | none => (Except.error ⟨404, "Short code not found"⟩, db)
  | some url =>
    (Except.ok ⟨url.short_code, url.original_url,
                (db.clicks.filter (fun c => c.url_id == url.id)).length,
                url.created_at⟩, db)

/-- The uniqueness invariant: no two mapping rows share a `short_code`. -/
def codes_unique (db : DB) : Prop :=
  (db.mappings.map (fun m => m.short_code)).Nodup

instance (db : DB) : Decidable (codes_unique db) := by
  unfold codes_unique; infer_instance

/-! ## Helper lemmas on the retry loop -/

/-- If every candidate the generator will produce during the remaining
attempts is already taken, the loop exhausts its budget: it returns the
HTTP 500 error and leaves the database unchanged. -/
theorem create_short_url_loop_all_taken (picks : Nat → Nat → Fin BASE62_CHARS.length)
    (u : String) (now : Nat) (db : DB) :
    ∀ (r a : Nat),
      (∀ i, i < r → code_taken db (generate_short_code 7 (picks (a + i))) = true) →
      create_short_url_loop picks u now db a r =
        (Except.error ⟨500, "Failed to generate unique short code"⟩, db) := by
  intro r
  induction r with
  | zero => intro a _; rfl
  | succ n ih =>
    intro a h
    have h0 : code_taken db (generate_short_code 7 (picks a)) = true := by
      simpa using h 0 (Nat.succ_pos n)
    have hrec := ih (a + 1) (fun i hi => by
      have hx := h (i + 1) (Nat.succ_lt_succ hi)
      rwa [show a + (i + 1) = a + 1 + i by omega] at hx)
    simp [create_short_url_loop, insert_mapping, h0, hrec]

/-- Shape of a successful run of the loop: some attempt `k` within the
budget produced a candidate that was not yet taken, the response carries
that candidate together with the submitted URL, and the final database is
the input database with exactly the one new row appended. -/
theorem create_short_url_loop_ok_shape (picks : Nat → Nat → Fin BASE62_CHARS.length)
    (u : String) (now : Nat) (db : DB) :
    ∀ (r a : Nat) (resp : ShortenResponse) (db2 : DB),
      create_short_url_loop picks u now db a r = (Except.ok resp, db2) →
      ∃ k, k < r ∧
        resp = ⟨generate_short_code 7 (picks (a + k)), u⟩ ∧
        code_taken db (generate_short_code 7 (picks (a + k))) = false ∧
        db2 = inserted_db db u (generate_short_code 7 (picks (a + k))) now := by
  intro r
  induction r with
  | zero => intro a resp db2 h; simp [create_short_url_loop] at h
  | succ n ih =>
    intro a resp db2 h
    by_cases h0 : code_taken db (generate_short_code 7 (picks a)) = true
    · simp only [create_short_url_loop, insert_mapping, h0, if_true] at h
      obtain ⟨k, hk, h1, h2, h3⟩ := ih (a + 1) resp db2 h
      refine ⟨k + 1, by omega, ?_, ?_, ?_⟩
      · rwa [show a + (k + 1) = a + 1 + k by omega]
      · rwa [show a + (k + 1) = a + 1 + k by omega]
      · rwa [show a + (k + 1) = a + 1 + k by omega]
    · have h0f : code_taken db (generate_short_code 7 (picks a)) = false :=
        Bool.not_eq_true _ ▸ Bool.of_not_eq_true h0
      simp only [create_short_url_loop, insert_mapping, h0f, Bool.false_eq_true,
        if_false, Prod.mk.injEq, Except.ok.injEq] at h
      exact ⟨0, Nat.succ_pos n, by simp [← h.1, Nat.add_zero], by simpa using h0f,
             by simp [← h.2, Nat.add_zero]⟩

/-- Shape of an exhausted run of the loop: the error is the HTTP 500 with
the source's detail message, the database is unchanged, and every candidate
generated during the run conflicted with an existing row. -/
theorem create_short_url_loop_error_shape (picks : Nat → Nat → Fin BASE62_CHARS.length)
    (u : String) (now : Nat) (db : DB) :
    ∀ (r a : Nat) (e : HTTPException) (db2 : DB),
      create_short_url_loop picks u now db a r = (Except.error e, db2) →
      db2 = db ∧ e = ⟨500, "Failed to generate unique short code"⟩ ∧
        ∀ i, i < r → code_taken db (generate_short_code 7 (picks (a + i))) = true := by
  intro r
  induction r with
  | zero =>
    intro a e db2 h
    simp only [create_short_url_loop, Prod.mk.injEq, Except.error.injEq] at h
    exact ⟨h.2.symm, h.1.symm, fun i hi => absurd hi (Nat.not_lt_zero i)⟩
  | succ n ih =>
    intro a e db2 h
    by_cases h0 : code_taken db (generate_short_code 7 (picks a)) = true
    · simp only [create_short_url_loop, insert_mapping, h0, if_true] at h
      obtain ⟨hdb, he, hall⟩ := ih (a + 1) e db2 h
      refine ⟨hdb, he, fun i hi => ?_⟩
      cases i with
      | zero => simpa using h0
      | succ j =>
        have hx := hall j (by omega)
        rwa [show a + 1 + j = a + (j + 1) by omega] at hx
    · have h0f : code_taken db (generate_short_code 7 (picks a)) = false :=
        Bool.not_eq_true _ ▸ Bool.of_not_eq_true h0
      simp [create_short_url_loop, insert_mapping, h0f] at h

/-- If the first `k` candidates are taken and the `k`-th is fresh (with `k`
within the remaining budget), the loop succeeds exactly at attempt `k`. -/
theorem create_short_url_loop_success_at (picks : Nat → Nat → Fin BASE62_CHARS.length)
    (u : String) (now : Nat) (db : DB) :
    ∀ (r a k : Nat), k < r →
      (∀ i, i < k → code_taken db (generate_short_code 7 (picks (a + i))) = true) →
      code_taken db (generate_short_code 7 (picks (a + k))) = false →
      create_short_url_loop picks u now db a r =
        (Except.ok ⟨generate_short_code 7 (picks (a + k)), u⟩,
         inserted_db db u (generate_short_code 7 (picks (a + k))) now) := by
  intro r
  induction r with
  | zero => intro a k hk _ _; exact absurd hk (Nat.not_lt_zero k)
  | succ n ih =>
    intro a k hk hprev hfresh
    cases k with
    | zero =>
      have h0 : code_taken db (generate_short_code 7 (picks a)) = false := by
        simpa using hfresh
      simp [create_short_url_loop, insert_mapping, h0]
    | succ j =>
      have h0 : code_taken db (generate_short_code 7 (picks a)) = true := by
        simpa using hprev 0 (Nat.succ_pos j)
      have hrec := ih (a + 1) j (by omega)
        (fun i hi => by
          have hx := hprev (i + 1) (Nat.succ_lt_succ hi)
          rwa [show a + (i + 1) = a + 1 + i by omega] at hx)
        (by rwa [show a + (j + 1) = a + 1 + j by omega] at hfresh)
      rw [show a + (j + 1) = a + 1 + j by omega]
      simp [create_short_url_loop, insert_mapping, h0, hrec]

/-! ## Concrete fixtures used by witnesses -/

/-- A stubbed generator whose every draw is the first alphabet character:
every candidate code it yields is the constant string of seven zeros. -/
def picksStub : Nat → Nat → Fin BASE62_CHARS.length := fun _ _ => ⟨0, by decide⟩

/-- An empty database. -/
def dbEmpty : DB := ⟨[], [], 1, 1⟩

/-- A database holding the single mapping `"0000000" ↦ "https://x.io/"`,
which collides with every candidate `picksStub` generates. -/
def dbOne : DB := ⟨[⟨1, "https://x.io/", "0000000", 0⟩], [], 2, 1⟩

/-- A database holding two mappings with distinct codes and ids. -/
def dbTwo : DB :=
  ⟨[⟨1, "https://x.io/", "0000000", 0⟩, ⟨2, "https://y.io/", "1111111", 0⟩], [], 3, 1⟩

/-! ## C1 -/

/-- C1: `create_short_url` makes at most 5 sequential insert attempts, each
with a fresh candidate from the generator stream.  If every one of the 5
candidates collides with an existing `short_code`, it fails with the HTTP
500 exhaustion error and the database is unchanged; if the first `k`
candidates collide and candidate `k` (with `k < 5`) is fresh, it returns
that candidate as the short code immediately, having inserted exactly that
mapping. -/
theorem create_short_url_retry_contract (picks : Nat → Nat → Fin BASE62_CHARS.length)
    (u : String) (now : Nat) (db : DB) :
    ((∀ a, a < 5 → code_taken db (generate_short_code 7 (picks a)) = true) →
      create_short_url picks u now db =
        (Except.error ⟨500, "Failed to generate unique short code"⟩, db)) ∧
    (∀ k, k < 5 →
      (∀ a, a < k → code_taken db (generate_short_code 7 (picks a)) = true) →
      code_taken db (generate_short_code 7 (picks k)) = false →
      create_short_url picks u now db =
        (Except.ok ⟨generate_short_code 7 (picks k), u⟩,
         inserted_db db u (generate_short_code 7 (picks k)) now)) := by
  constructor
  · intro h
    exact create_short_url_loop_all_taken picks u now db 5 0
      (fun i hi => by simpa using h i hi)
  · intro k hk hprev hfresh
    have hx := create_short_url_loop_success_at picks u now db 5 0 k hk
      (fun i hi => by simpa using hprev i hi) (by simpa using hfresh)
    simpa [create_short_url] using hx

/-- Witness for C1: with the constant stub generator and a database already
holding the code `"0000000"`, all 5 attempts conflict and the call fails
with the HTTP 500 exhaustion error, leaving the database unchanged. -/
theorem create_short_url_retry_contract_witness :
    create_short_url picksStub "https://example.com/a" 0 dbOne =
      (Except.error ⟨500, "Failed to generate unique short code"⟩, dbOne) :=
  (create_short_url_retry_contract picksStub "https://example.com/a" 0 dbOne).1
    (by decide)

/-! ## Helper lemmas for the uniqueness invariant -/

/-- Inserting a row whose code passes the uniqueness constraint preserves
the invariant that no two rows share a `short_code`. -/
theorem codes_unique_inserted (db : DB) (u c : String) (now : Nat)
    (hinv : codes_unique db) (hfresh : code_taken db c = false) :
    codes_unique (inserted_db db u c now) := by
  have hall : ∀ m ∈ db.mappings, ¬ m.short_code = c := by
    simpa [code_taken] using hfresh
  unfold codes_unique inserted_db
  simp only [List.map_append, List.map_cons, List.map_nil]
  rw [List.nodup_append]
  refine ⟨hinv, List.nodup_singleton c, ?_⟩
  intro x hx hx2
  obtain ⟨m, hm, rfl⟩ := List.mem_map.1 hx
  exact hall m hm (by simpa using hx2)

/-- A successful `create_short_url` preserves the uniqueness invariant
(an exhausted one leaves the database unchanged, so it does too). -/
theorem create_short_url_preserves_unique (picks : Nat → Nat → Fin BASE62_CHARS.length)
    (u : String) (now : Nat) (db : DB) (hinv : codes_unique db) :
    codes_unique (create_short_url picks u now db).2 := by
  cases hres : (create_short_url picks u now db).1 with
  | error e =>
    have hp : create_short_url_loop picks u now db 0 5 =
        (Except.error e, (create_short_url picks u now db).2) := by
      rw [← hres]; rfl
    obtain ⟨hdb, -, -⟩ :=
      create_short_url_loop_error_shape picks u now db 5 0 e _ hp
    rw [hdb]; exact hinv
  | ok resp =>
    have hp : create_short_url_loop picks u now db 0 5 =
        (Except.ok resp, (create_short_url picks u now db).2) := by
      rw [← hres]; rfl
    obtain ⟨k, -, -, hfresh, hdb⟩ :=
      create_short_url_loop_ok_shape picks u now db 5 0 resp _ hp
    rw [hdb]
    exact codes_unique_inserted db u _ now hinv hfresh

/-- The function `redirect_short_code` never touches the mappings table. -/
theorem redirect_mappings_unchanged (db : DB) (code : String)
    (client ua : Option String) (now : Nat) :
    (redirect_short_code db code client ua now).2.mappings = db.mappings := by
  cases hf : find_by_code db code <;> simp [redirect_short_code, hf]

/-- The function `get_stats` returns the database unchanged. -/
theorem get_stats_db_unchanged (db : DB) (code : String) :
    (get_stats db code).2 = db := by
  cases hf : find_by_code db code <;> simp [get_stats, hf]

/-- After an insert of code `c` succeeded, `c` is taken. -/
theorem code_taken_inserted (db : DB) (u c : String) (now : Nat) :
    code_taken (inserted_db db u c now) c = true := by
  simp [code_taken, inserted_db]

/-! ## C2 -/

/-- C2: if no two mapping rows share a `short_code`, then after any of the
three operations (`create_short_url`, `redirect_short_code`, `get_stats`)
still no two mapping rows share a `short_code`; moreover two insert
attempts with the same candidate code cannot both succeed: once one insert
of code `c` committed, any further insert of `c` fails with the constraint
violation, because the check happens atomically inside the insert rather
than as a prior existence check. -/
theorem short_code_uniqueness_invariant (db : DB)
    (picks : Nat → Nat → Fin BASE62_CHARS.length) (u : String) (now : Nat)
    (code : String) (client ua : Option String) (now2 : Nat) :
    codes_unique db →
    (codes_unique (create_short_url picks u now db).2 ∧
     codes_unique (redirect_short_code db code client ua now2).2 ∧
     codes_unique (get_stats db code).2 ∧
     ∀ u1 now1 m db2, insert_mapping db u1 code now1 = Except.ok (m, db2) →
       ∀ u2 now3, insert_mapping db2 u2 code now3 = Except.error ()) := by
  intro hinv
  refine ⟨create_short_url_preserves_unique picks u now db hinv, ?_, ?_, ?_⟩
  · unfold codes_unique
    rw [redirect_mappings_unchanged db code client ua now2]
    exact hinv
  · rw [get_stats_db_unchanged db code]
    exact hinv
  · intro u1 now1 m db2 hok u2 now3
    unfold insert_mapping at hok
    by_cases ht : code_taken db code = true
    · simp [ht] at hok
    · have htf : code_taken db code = false :=
        Bool.not_eq_true _ ▸ Bool.of_not_eq_true ht
      simp only [htf, Bool.false_eq_true, if_false, Except.ok.injEq, Prod.mk.injEq] at hok
      rw [← hok.2]
      simp [insert_mapping, code_taken_inserted]

/-- Witness for C2: the invariant holds of `dbOne` and is preserved by a
`create_short_url` call against it. -/
theorem short_code_uniqueness_invariant_witness :
    codes_unique (create_short_url picksStub "https://example.com/a" 0 dbOne).2 :=
  ((short_code_uniqueness_invariant dbOne picksStub "https://example.com/a" 0
    "0000000" none none 1) (by decide)).1

/-! ## C3 -/

/-- C3: for any string `code`, when no mapping has that code,
`redirect_short_code` fails with 404 and the database — in particular the
clicks table — is unchanged (no server error is possible: the miss branch
is the only failure).  When a mapping `m` has that code, exactly one click
row is appended, referencing `m.id` and carrying the supplied origin
address and client identifier (each defaulted to `"unknown"` when absent),
and the result is a 302 redirect to `m.original_url`. -/
theorem redirect_short_code_contract (db : DB) (code : String)
    (client ua : Option String) (now : Nat) :
    (find_by_code db code = none →
      redirect_short_code db code client ua now =
        (Except.error ⟨404, "Short code not found"⟩, db)) ∧
    (∀ m, find_by_code db code = some m →
      redirect_short_code db code client ua now =
        (Except.ok ⟨m.original_url, 302⟩,
         { db with
           clicks := db.clicks ++
             [⟨db.next_click_id, m.id, now, client.getD "unknown", ua.getD "unknown"⟩],
           next_click_id := db.next_click_id + 1 })) := by
  constructor
  · intro h
    simp [redirect_short_code, h]
  · intro m h
    simp [redirect_short_code, h]

/-- Witness for C3: resolving a code that was never issued returns 404 and
leaves the database unchanged. -/
theorem redirect_short_code_contract_witness :
    redirect_short_code dbOne "zzz" none none 0 =
      (Except.error ⟨404, "Short code not found"⟩, dbOne) :=
  (redirect_short_code_contract dbOne "zzz" none none 0).1 (by decide)

/-! ## Helper lemmas for lookup and click recording -/

/-- Looking up a freshly inserted code finds the row that was inserted. -/
theorem find_by_code_inserted (db : DB) (u c : String) (now : Nat)
    (hfresh : code_taken db c = false) :
    find_by_code (inserted_db db u c now) c =
      some ⟨db.next_mapping_id, u, c, now⟩ := by
  have hall : ∀ m ∈ db.mappings, ¬ m.short_code = c := by
    simpa [code_taken] using hfresh
  have h1 : db.mappings.find? (fun m => m.short_code == c) = none :=
    List.find?_eq_none.2 (fun x hx => by simpa using hall x hx)
  unfold find_by_code inserted_db
  rw [List.find?_append]
  simp [h1]

/-- Shape of the clicks table after a successful redirect: exactly one new
click, referencing the found mapping's id and carrying the defaulted origin
address and client identifier. -/
theorem redirect_clicks_shape (db : DB) (code : String)
    (client ua : Option String) (now : Nat) (m : UrlMapping)
    (hm : find_by_code db code = some m) :
    (redirect_short_code db code client ua now).2.clicks =
      db.clicks ++
        [⟨db.next_click_id, m.id, now, client.getD "unknown", ua.getD "unknown"⟩] := by
  simp [redirect_short_code, hm]

/-! ## C4 -/

/-- C4: round-trip — when `create_short_url` on URL `U` succeeds with some
response, that response carries `U` itself, and resolving the returned
short code against the resulting database yields a 302 redirect whose
target is `U`, byte for byte. -/
theorem shorten_resolve_round_trip (picks : Nat → Nat → Fin BASE62_CHARS.length)
    (U : String) (now now2 : Nat) (db : DB) (resp : ShortenResponse)
    (client ua : Option String) :
    (create_short_url picks U now db).1 = Except.ok resp →
    (resp.original_url = U ∧
     (redirect_short_code (create_short_url picks U now db).2 resp.short_code
        client ua now2).1 = Except.ok ⟨U, 302⟩) := by
  intro hres
  have hp : create_short_url_loop picks U now db 0 5 =
      (Except.ok resp, (create_short_url picks U now db).2) := by
    rw [← hres]; rfl
  obtain ⟨k, -, hresp, hfresh, hdb⟩ :=
    create_short_url_loop_ok_shape picks U now db 5 0 resp _ hp
  subst hresp
  simp only [Nat.zero_add] at hfresh hdb ⊢
  refine ⟨trivial, ?_⟩
  rw [hdb]
  have hfind := find_by_code_inserted db U _ now hfresh
  simp [redirect_short_code, hfind]

/-- Witness for C4: shortening `"https://example.com/a"` into an empty
database yields code `"0000000"` under the stub generator, and resolving
that code redirects to `"https://example.com/a"`. -/
theorem shorten_resolve_round_trip_witness :
    (redirect_short_code (create_short_url picksStub "https://example.com/a" 0 dbEmpty).2
       "0000000" none none 1).1 = Except.ok ⟨"https://example.com/a", 302⟩ :=
  (shorten_resolve_round_trip picksStub "https://example.com/a" 0 1 dbEmpty
     ⟨"0000000", "https://example.com/a"⟩ none none rfl).2

/-! ## C5 -/

/-- C5: `create_short_url` is atomic over the mappings table — on any error
the database is exactly the input database (every conflicting insert was
rolled back, and after exhaustion zero new rows exist), and on success the
mappings table is the input table with exactly one new row appended,
carrying the returned short code and the submitted URL. -/
theorem create_short_url_atomic (picks : Nat → Nat → Fin BASE62_CHARS.length)
    (u : String) (now : Nat) (db : DB) :
    (∀ e, (create_short_url picks u now db).1 = Except.error e →
       (create_short_url picks u now db).2 = db) ∧
    (∀ resp, (create_short_url picks u now db).1 = Except.ok resp →
       (create_short_url picks u now db).2.mappings =
         db.mappings ++ [⟨db.next_mapping_id, u, resp.short_code, now⟩]) := by
  constructor
  · intro e hres
    have hp : create_short_url_loop picks u now db 0 5 =
        (Except.error e, (create_short_url picks u now db).2) := by
      rw [← hres]; rfl
    exact (create_short_url_loop_error_shape picks u now db 5 0 e _ hp).1
  · intro resp hres
    have hp : create_short_url_loop picks u now db 0 5 =
        (Except.ok resp, (create_short_url picks u now db).2) := by
      rw [← hres]; rfl
    obtain ⟨k, -, hresp, -, hdb⟩ :=
      create_short_url_loop_ok_shape picks u now db 5 0 resp _ hp
    subst hresp
    rw [hdb]
    simp [inserted_db]

/-- Witness for C5: after the exhausted call against `dbOne`, the database
— in particular the mappings table — is unchanged. -/
theorem create_short_url_atomic_witness :
    (create_short_url picksStub "https://example.com/a" 0 dbOne).2 = dbOne :=
  (create_short_url_atomic picksStub "https://example.com/a" 0 dbOne).1
    ⟨500, "Failed to generate unique short code"⟩ rfl

/-! ## C6 -/

/-- The generated code has exactly the requested number of characters. -/
theorem generate_short_code_length (n : Nat) (pick : Nat → Fin BASE62_CHARS.length) :
    (generate_short_code n pick).length = n := by
  simp [generate_short_code, String.length]

/-- Every character of a generated code belongs to the alphabet. -/
theorem generate_short_code_mem (n : Nat) (pick : Nat → Fin BASE62_CHARS.length) :
    ∀ ch ∈ (generate_short_code n pick).toList, ch ∈ BASE62_CHARS := by
  intro ch hch
  simp only [generate_short_code, String.toList, List.mem_map, List.mem_range] at hch
  obtain ⟨i, -, rfl⟩ := hch
  exact List.get_mem _ _ _

/-- C6: `generate_short_code n` always returns a string of exactly `n`
characters drawn from the 62-character alphabet `BASE62_CHARS` (digits,
lowercase, uppercase), and consequently the short code of every successful
`create_short_url` response has exactly 7 characters from that alphabet. -/
theorem generate_short_code_alphabet (n : Nat)
    (pick : Nat → Fin BASE62_CHARS.length)
    (picks : Nat → Nat → Fin BASE62_CHARS.length)
    (u : String) (now : Nat) (db : DB) :
    ((generate_short_code n pick).length = n ∧
     ∀ ch ∈ (generate_short_code n pick).toList, ch ∈ BASE62_CHARS) ∧
    (∀ resp, (create_short_url picks u now db).1 = Except.ok resp →
       resp.short_code.length = 7 ∧
       ∀ ch ∈ resp.short_code.toList, ch ∈ BASE62_CHARS) := by
  refine ⟨⟨generate_short_code_length n pick, generate_short_code_mem n pick⟩, ?_⟩
  intro resp hres
  have hp : create_short_url_loop picks u now db 0 5 =
      (Except.ok resp, (create_short_url picks u now db).2) := by
    rw [← hres]; rfl
  obtain ⟨k, -, hresp, -, -⟩ :=
    create_short_url_loop_ok_shape picks u now db 5 0 resp _ hp
  subst hresp
  exact ⟨generate_short_code_length 7 (picks (0 + k)),
         generate_short_code_mem 7 (picks (0 + k))⟩

/-- Witness for C6: the code issued by the stub-generator run has exactly 7
characters, each in the alphabet. -/
theorem generate_short_code_alphabet_witness :
    ("0000000" : String).length = 7 ∧
      ∀ ch ∈ ("0000000" : String).toList, ch ∈ BASE62_CHARS :=
  (generate_short_code_alphabet 7 (picksStub 0) picksStub "https://example.com/a" 0
     dbEmpty).2 ⟨"0000000", "https://example.com/a"⟩ rfl

/-! ## C7 -/

/-- C7: `get_stats` fails with 404 when no mapping has the code, and
otherwise returns the found mapping's short code, original URL, creation
timestamp, and a `total_clicks` equal to the number of click rows whose
`url_id` equals that mapping's id at query time; the database itself is
returned unchanged in both cases. -/
theorem get_stats_contract (db : DB) (code : String) :
    (find_by_code db code = none →
      get_stats db code = (Except.error ⟨404, "Short code not found"⟩, db)) ∧
    (∀ m, find_by_code db code = some m →
      get_stats db code =
        (Except.ok ⟨m.short_code, m.original_url,
            (db.clicks.filter (fun c => c.url_id == m.id)).length,
            m.created_at⟩, db)) := by
  constructor
  · intro h
    simp [get_stats, h]
  · intro m h
    simp [get_stats, h]

/-- Witness for C7: stats for a code that was never issued is a 404. -/
theorem get_stats_contract_witness :
    get_stats dbOne "zzz" = (Except.error ⟨404, "Short code not found"⟩, dbOne) :=
  (get_stats_contract dbOne "zzz").1 (by decide)

/-- When the lookup hits, the redirect result is a 302 to the found
mapping's original URL. -/
theorem redirect_ok_of_find (db : DB) (code : String) (client ua : Option String)
    (now : Nat) (m : UrlMapping) (hm : find_by_code db code = some m) :
    (redirect_short_code db code client ua now).1 = Except.ok ⟨m.original_url, 302⟩ := by
  simp [redirect_short_code, hm]

/-- When the lookup hits, `get_stats` answers with the found mapping's
fields and the current click count for its id. -/
theorem get_stats_ok_of_find (db : DB) (code : String) (m : UrlMapping)
    (hm : find_by_code db code = some m) :
    (get_stats db code).1 =
      Except.ok ⟨m.short_code, m.original_url,
        (db.clicks.filter (fun c => c.url_id == m.id)).length, m.created_at⟩ := by
  simp [get_stats, hm]

/-! ## C8 -/

/-- C8: with no intervening writes other than the click recording itself,
reads are stable and clicks count up by exactly one: resolving an issued
code returns its mapping's `original_url`, resolving it again (after the
click was recorded) returns the same `original_url`, and the
`total_clicks` that `get_stats` reports grows from the click count before
the resolve to exactly that count plus one afterwards, with the other
stats fields unchanged. -/
theorem resolve_and_record_click_increment (db : DB) (code : String)
    (client ua client2 ua2 : Option String) (now now2 : Nat) (m : UrlMapping) :
    find_by_code db code = some m →
    ((redirect_short_code db code client ua now).1 = Except.ok ⟨m.original_url, 302⟩ ∧
     (redirect_short_code (redirect_short_code db code client ua now).2 code
        client2 ua2 now2).1 = Except.ok ⟨m.original_url, 302⟩ ∧
     (get_stats db code).1 =
       Except.ok ⟨m.short_code, m.original_url,
         (db.clicks.filter (fun c => c.url_id == m.id)).length, m.created_at⟩ ∧
     (get_stats (redirect_short_code db code client ua now).2 code).1 =
       Except.ok ⟨m.short_code, m.original_url,
         (db.clicks.filter (fun c => c.url_id == m.id)).length + 1,
         m.created_at⟩) := by
  intro hm
  have hmap := redirect_mappings_unchanged db code client ua now
  have hfind2 : find_by_code (redirect_short_code db code client ua now).2 code = some m := by
    unfold find_by_code
    rw [hmap]
    exact hm
  have hclicks := redirect_clicks_shape db code client ua now m hm
  refine ⟨redirect_ok_of_find db code client ua now m hm, ?_, ?_, ?_⟩
  · exact redirect_ok_of_find _ code client2 ua2 now2 m hfind2
  · exact get_stats_ok_of_find db code m hm
  · rw [get_stats_ok_of_find _ code m hfind2]
    have hcount :
        ((redirect_short_code db code client ua now).2.clicks.filter
          (fun c => c.url_id == m.id)).length =
        (db.clicks.filter (fun c => c.url_id == m.id)).length + 1 := by
      rw [hclicks]
      simp [List.filter_append]
    rw [hcount]

/-- Witness for C8: resolving `"0000000"` against `dbOne` redirects to
`"https://x.io/"` both times and the reported click count goes from 0
to 1. -/
theorem resolve_and_record_click_increment_witness :
    (redirect_short_code dbOne "0000000" none none 5).1 =
      Except.ok ⟨"https://x.io/", 302⟩ ∧
    (redirect_short_code (redirect_short_code dbOne "0000000" none none 5).2 "0000000"
       none none 6).1 = Except.ok ⟨"https://x.io/", 302⟩ ∧
    (get_stats dbOne "0000000").1 =
      Except.ok ⟨"0000000", "https://x.io/", 0, 0⟩ ∧
    (get_stats (redirect_short_code dbOne "0000000" none none 5).2 "0000000").1 =
      Except.ok ⟨"0000000", "https://x.io/", 1, 0⟩ :=
  resolve_and_record_click_increment dbOne "0000000" none none none none 5 6
    ⟨1, "https://x.io/", "0000000", 0⟩ rfl

/-! ## C9 -/

/-- A 300-character client identifier, used to exhibit that the stored
string is not truncated to the declared 255-character column width. -/
def uaLong : String := String.mk (List.replicate 300 'a')

/-- Counterexample to C9 as stated: a redirect supplied with a
300-character client identifier stores a click whose `user_agent` has 300
characters — longer than the 255-character column width the claim says it
is truncated to.  (SQLite does not enforce declared `VARCHAR` widths and
the application code performs no truncation.) -/
theorem click_user_agent_truncation_counterexample :
    (redirect_short_code dbOne "0000000" none (some uaLong) 0).2.clicks =
      [⟨1, 1, 0, "unknown", uaLong⟩] ∧
    uaLong.length = 300 ∧ ¬ uaLong.length ≤ 255 := by
  have hlen : uaLong.length = 300 := by
    unfold uaLong
    rw [String.length_mk, List.length_replicate]
  exact ⟨rfl, hlen, by simp [hlen]⟩

/-- C9 (amended): every click stored by `redirect_short_code` carries the
supplied client identifier verbatim — whatever its length — with only the
`"unknown"` defaulting applied; no truncation to the declared
255-character column width is performed. -/
theorem click_user_agent_stored_verbatim (db : DB) (code : String)
    (client ua : Option String) (now : Nat) (m : UrlMapping) :
    find_by_code db code = some m →
    (redirect_short_code db code client ua now).2.clicks =
      db.clicks ++
        [⟨db.next_click_id, m.id, now, client.getD "unknown", ua.getD "unknown"⟩] := by
  intro hm
  exact redirect_clicks_shape db code client ua now m hm

/-- Witness for C9 (amended): the 300-character identifier is stored
unchanged. -/
theorem click_user_agent_stored_verbatim_witness :
    (redirect_short_code dbOne "0000000" none (some uaLong) 0).2.clicks =
      dbOne.clicks ++ [⟨1, 1, 0, "unknown", uaLong⟩] :=
  click_user_agent_stored_verbatim dbOne "0000000" none (some uaLong) 0
    ⟨1, "https://x.io/", "0000000", 0⟩ rfl

/-! ## C10 -/

/-- C10: a successful redirect on code `C` (resolving to mapping `m`) is
frame-preserving — the mappings table is untouched (so every mapping keeps
its `original_url`, `short_code` and `created_at`), every click row added
by the call references `m.id` only, the click count of every id other than
`m.id` is unchanged, and the `get_stats` answer of every code whose
mapping is not `m` is unchanged. -/
theorem redirect_frame_property (db : DB) (code : String)
    (client ua : Option String) (now : Nat) (m : UrlMapping) :
    find_by_code db code = some m →
    ((redirect_short_code db code client ua now).2.mappings = db.mappings ∧
     (∀ cl, cl ∈ (redirect_short_code db code client ua now).2.clicks →
        cl ∉ db.clicks → cl.url_id = m.id) ∧
     (∀ j, j ≠ m.id →
        ((redirect_short_code db code client ua now).2.clicks.filter
           (fun c => c.url_id == j)).length =
          (db.clicks.filter (fun c => c.url_id == j)).length) ∧
     (∀ code2 m2, find_by_code db code2 = some m2 → m2.id ≠ m.id →
        (get_stats (redirect_short_code db code client ua now).2 code2).1 =
          (get_stats db code2).1)) := by
  intro hm
  have hmap := redirect_mappings_unchanged db code client ua now
  have hclicks := redirect_clicks_shape db code client ua now m hm
  refine ⟨hmap, ?_, ?_, ?_⟩
  · intro cl hcl hnot
    rw [hclicks] at hcl
    rcases List.mem_append.1 hcl with h | h
    · exact absurd h hnot
    · simp only [List.mem_singleton] at h
      subst h
      rfl
  · intro j hj
    have hfalse : (m.id == j) = false := by
      simp only [beq_eq_false_iff_ne, ne_eq]
      exact fun h => hj h.symm
    rw [hclicks]
    simp [List.filter_append, hfalse]
  · intro code2 m2 hm2 hne
    have hf2 : find_by_code (redirect_short_code db code client ua now).2 code2 = some m2 := by
      unfold find_by_code
      rw [hmap]
      exact hm2
    have hfalse : (m.id == m2.id) = false := by
      simp only [beq_eq_false_iff_ne, ne_eq]
      exact fun h => hne h.symm
    simp [get_stats, hf2, hm2, hclicks, List.filter_append, hfalse]

/-- Witness for C10: with a second mapping present, resolving the first
code leaves the second mapping's stats answer unchanged. -/
theorem redirect_frame_property_witness :
    (redirect_short_code dbTwo "0000000" none none 5).2.mappings = dbTwo.mappings :=
  (redirect_frame_property dbTwo "0000000" none none 5
     ⟨1, "https://x.io/", "0000000", 0⟩ rfl).1
